import Mathlib

/-!
# Versioned HTTP API boundary: route table, dispatcher and client request layer

A shallow embedding of `api/server/server.go`, `client/image_remove.go` and
`client/service_inspect.go`.

Conventions of the embedding

* A Go `error` is an `Option Error` (`none` is `nil`); a possibly-nil slice is an
  `Option (List _)`.
* The `http.ResponseWriter` is the list of writes made to it so far; every function
  that receives a writer returns the extended list.
* Calls into libraries that are outside the repository (gorilla/mux, otelhttp, the JSON
  codec, the HTTP transport) are recorded with the arguments the source passes to them.
-/

namespace Moby

/-! ## Shared error values -/

/-- The classification an error value carries (`errdefs`). -/
inductive ErrorKind where
  | InvalidParameter
  | Unauthorized
  | Forbidden
  | NotFound
  | Conflict
  | System
  | Unknown
deriving DecidableEq, Repr

/-- A Go `error`: `text` is what `err.Error()` returns. -/
structure Error where
  kind : ErrorKind
  text : String
deriving DecidableEq, Repr

/-! ## Server: `api/server/server.go` -/

namespace server

/-- The constant `versionMatcher`. -/
def versionMatcher : String := "/v\x7bversion:[0-9.]+\x7d"

/-- The value `types.ErrorResponse`. -/
structure ErrorResponse where
  Message : String
deriving DecidableEq, Repr

/-- One write on a `http.ResponseWriter`. `json code v` is the call
`httputils.WriteJSON(w, code, v)`; `raw` is anything an endpoint writes itself. -/
inductive Write where
  | json (code : Nat) (v : ErrorResponse)
  | raw (code : Nat) (body : String)
deriving DecidableEq, Repr

/-- The state of a `http.ResponseWriter`: the writes made so far, oldest first. -/
abbrev ResponseWriter := List Write

/-- The call `httputils.WriteJSON(w, code, v)`. -/
def WriteJSON (w : ResponseWriter) (code : Nat) (v : ErrorResponse) : ResponseWriter :=
  w ++ [Write.json code v]

/-- The constant `http.StatusNotFound`. -/
def StatusNotFound : Nat := 404

/-- Route variables, as returned by `mux.Vars`. -/
abbrev Vars := List (String × String)

/-- The keys of baggage members used by the dispatcher: the constant
`otelutil.TriggerKey`. -/
inductive BaggageKey where
  | TriggerKey
deriving DecidableEq, Repr

/-- The part of a `context.Context` that the dispatcher sets: the value stored under
`dockerversion.UAStringKey{}` and the baggage members. -/
structure Context where
  uaString : Option String
  baggage : List (BaggageKey × String)
deriving DecidableEq, Repr

/-- The part of a `*http.Request` that the dispatcher reads. `UserAgent` is
`r.Header.Get("User-Agent")` (empty when the header is absent) and `vars` is
`mux.Vars(r)` (`none` when it is nil). -/
structure Request where
  Method : String
  Path : String
  UserAgent : String
  ctx : Context
  vars : Option Vars
deriving DecidableEq, Repr

/-- The type `httputils.APIFunc`: it receives the context, the writer, the request and the
route variables, and returns the writer it leaves behind and its error. -/
abbrev APIFunc := Context → ResponseWriter → Request → Vars → ResponseWriter × Option Error

/-- The interface `middleware.Middleware`. -/
structure Middleware where
  WrapHandler : APIFunc → APIFunc

/-- The struct `Server`. -/
structure Server where
  middlewares : List Middleware

/-- The method `UseMiddleware`: `s.middlewares = append(s.middlewares, m)`. -/
def UseMiddleware (s : Server) (m : Middleware) : Server :=
  { s with middlewares := s.middlewares ++ [m] }

/-- Modelled from the spec: the method `handlerWithGlobalMiddlewares` is called by
`makeHTTPHandler` and is defined outside the available sources. The handler it returns
is the composition of all registered middleware wrapped around the route handler,
innermost the route handler, outermost the first-registered middleware. -/
def handlerWithGlobalMiddlewares (s : Server) (handler : APIFunc) : APIFunc :=
  s.middlewares.foldr (fun m next => m.WrapHandler next) handler

/-- A line written by `log.G(ctx).Errorf` in the dispatcher, kept as its three arguments. -/
structure LogLine where
  method : String
  path : String
  err : String
deriving DecidableEq, Repr

/-- A `http.HandlerFunc` built by this package. The closures built by `makeHTTPHandler`
hold the pointer `s`, so the state of `*s` at the time of the request is an argument of
`ServeHTTP`. `operation` is the name handed to `otelhttp.NewHandler` (`none` for a plain
handler function). -/
structure HTTPHandler where
  operation : Option String
  ServeHTTP : Server → ResponseWriter → Request → ResponseWriter × List LogLine

/-- The method `makeHTTPHandler`, with `httpstatus.FromError` as a parameter. The closure
it returns keeps the receiver pointer `s` and calls `s.handlerWithGlobalMiddlewares` when
a request is served, so the server state is the first argument of `ServeHTTP`. The
`otelhttp` wrapper only records a span around the inner handler. -/
def makeHTTPHandler (FromError : Error → Nat) (handler : APIFunc) (operation : String) :
    HTTPHandler where
  operation := some operation
  ServeHTTP := fun s w r =>
    let ua := r.UserAgent
    let ctx : Context :=
      { uaString := some ua, baggage := [(BaggageKey.TriggerKey, "api")] }
    let r := { r with ctx := ctx }
    let handlerFunc := handlerWithGlobalMiddlewares s handler
    let vars := match r.vars with
      | some v => v
      | none => []
    match handlerFunc ctx w r vars with
    | (w, some err) =>
      let statusCode := FromError err
      let logged := if statusCode ≥ 500 then [LogLine.mk r.Method r.Path err.text] else []
      (WriteJSON w statusCode { Message := err.text }, logged)
    | (w, none) => (w, [])

/-- The interface `router.Route`. -/
structure Route where
  Method : String
  Path : String
  Handler : APIFunc

/-- The interface `router.Router`. -/
structure Router where
  Routes : List Route

/-- One route of a `mux.Router`, as built by `m.Path(tpl).Methods(ms...).Handler(f)` or by
`m.HandleFunc(tpl, f)` (no method restriction: `methods = none`). -/
structure MuxRoute where
  pathTemplate : String
  methods : Option (List String)
  handler : HTTPHandler

/-- The table `*mux.Router`. -/
structure Mux where
  routes : List MuxRoute
  NotFoundHandler : Option HTTPHandler
  MethodNotAllowedHandler : Option HTTPHandler

/-- The call `mux.NewRouter()`. -/
def NewRouter : Mux :=
  { routes := [], NotFoundHandler := none, MethodNotAllowedHandler := none }

/-- The build context of `CreateMux`: `Err k` tells whether the call of `ctx.Err()`
number `k` (counted from zero) returns a non-nil error. -/
structure BuildContext where
  Err : Nat → Bool

/-- The two statements of the inner loop body of `CreateMux` that extend the table. -/
def installRoute (FromError : Error → Nat) (m : Mux) (r : Route) : Mux :=
  let f := makeHTTPHandler FromError r.Handler (r.Method ++ " " ++ r.Path)
  let m := { m with routes := m.routes ++
    [MuxRoute.mk (versionMatcher ++ r.Path) (some [r.Method]) f] }
  { m with routes := m.routes ++ [MuxRoute.mk r.Path (some [r.Method]) f] }

/-- The inner loop of `CreateMux` over `apiRouter.Routes()`. The state is the table and
the number of `ctx.Err()` calls made so far; `Except.error m` is the early `return m`. -/
def registerRoutes (FromError : Error → Nat) (ctx : BuildContext) :
    List Route → Mux × Nat → Except Mux (Mux × Nat)
  | [], st => .ok st
  | r :: rs, (m, k) =>
    if ctx.Err k then .error m
    else registerRoutes FromError ctx rs (installRoute FromError m r, k + 1)

/-- The outer loop of `CreateMux` over `routers`. -/
def registerRouters (FromError : Error → Nat) (ctx : BuildContext) :
    List Router → Mux × Nat → Except Mux (Mux × Nat)
  | [], st => .ok st
  | apiRouter :: rest, st =>
    match registerRoutes FromError ctx apiRouter.Routes st with
    | .error m => .error m
    | .ok st => registerRouters FromError ctx rest st

/-- The handler `notFoundHandler` of `CreateMux`. -/
def notFoundHandler : HTTPHandler where
  operation := none
  ServeHTTP := fun _ w _ =>
    (WriteJSON w StatusNotFound { Message := "page not found" }, [])

/-- The method `CreateMux`. The receiver is not read while the table is built: it only
ends up, as a pointer, in the closures of `makeHTTPHandler`. -/
def CreateMux (FromError : Error → Nat) (ctx : BuildContext) (routers : List Router) : Mux :=
  match registerRouters FromError ctx routers (NewRouter, 0) with
  | .error m => m
  | .ok (m, _) =>
    let m := { m with routes := m.routes ++
      [MuxRoute.mk (versionMatcher ++ "/\x7bpath:.*\x7d") none notFoundHandler] }
    let m := { m with NotFoundHandler := some notFoundHandler }
    { m with MethodNotAllowedHandler := some notFoundHandler }

/-- All routes of all routers, in the order in which `CreateMux` visits them. -/
def flatRoutes (routers : List Router) : List Route :=
  routers.flatMap (fun apiRouter => apiRouter.Routes)

/-- The two matchers that one route contributes: the versioned one and the bare one, both
restricted to the method of the route and bound to the same handler value. -/
def routeMatchers (FromError : Error → Nat) (r : Route) : List MuxRoute :=
  let f := makeHTTPHandler FromError r.Handler (r.Method ++ " " ++ r.Path)
  [MuxRoute.mk (versionMatcher ++ r.Path) (some [r.Method]) f,
   MuxRoute.mk r.Path (some [r.Method]) f]

/-- The versioned catch-all route of `CreateMux`. -/
def catchAll : MuxRoute :=
  MuxRoute.mk (versionMatcher ++ "/\x7bpath:.*\x7d") none notFoundHandler

end server

/-! ## Client: `client/image_remove.go`, `client/service_inspect.go` -/

namespace client

/-- The type `url.Values`, a map from a key to its list of values. -/
structure Values where
  entries : List (String × List String)
deriving DecidableEq, Repr

/-- The value `url.Values{}`. -/
def Values.empty : Values := { entries := [] }

/-- The method `Values.Set`: the key is bound to the single value, replacing what it was
bound to. -/
def Values.Set (v : Values) (key value : String) : Values :=
  { entries := v.entries.filter (fun kv => kv.1 != key) ++ [(key, [value])] }

/-- The values bound to a key, `none` when the key is absent. -/
def Values.lookup (v : Values) (key : String) : Option (List String) :=
  v.entries.lookup key

/-- The keys of the map. -/
def Values.keys (v : Values) : List String :=
  v.entries.map Prod.fst

/-- A response body as `io.ReadAll` and a decoder see it: the bytes that can be read and the
error that ends the reading, if there is one. -/
structure ReadCloser where
  data : List UInt8
  err : Option Error
deriving DecidableEq, Repr

/-- The part of a `*http.Response` that the operations read. -/
structure Response where
  Body : ReadCloser
deriving DecidableEq, Repr

/-- The function `io.ReadAll`. -/
def ReadAll (r : ReadCloser) : List UInt8 × Option Error :=
  (r.data, r.err)

/-- What an operation does to the outside: a call of `cli.get` or of `cli.delete` with the
path and the query it is given (body and headers are nil in both operations), and the
deferred call of `ensureReaderClosed`. -/
inductive Event where
  | get (path : String) (query : Values)
  | delete (path : String) (query : Values)
  | ensureReaderClosed
deriving DecidableEq, Repr

/-- The struct `Client`, as far as the operations use it: the methods `get` and `delete`
are defined outside the available sources and are taken as parameters. Each answers
with a response or with an error. -/
structure Client where
  get : String → Values → Except Error Response
  delete : String → Values → Except Error Response

/-- The function `unicode.IsSpace`. -/
def isSpace (c : Char) : Bool :=
  let n := c.toNat
  (9 ≤ n && n ≤ 13) || n == 32 || n == 133 || n == 160 || n == 5760
    || (8192 ≤ n && n ≤ 8202) || n == 8232 || n == 8233 || n == 8239 || n == 8287
    || n == 12288

/-- The function `strings.TrimSpace`. -/
def TrimSpace (s : String) : String :=
  String.mk ((s.data.dropWhile isSpace).reverse.dropWhile isSpace).reverse

/-- An identifier that is empty or consists solely of whitespace. -/
def isBlank (s : String) : Bool :=
  s.data.all isSpace

/-- Modelled from the spec: the function `trimID` is called by `ServiceInspectWithRaw` and
is defined outside the available sources. An identifier that is the empty string or
consists solely of whitespace fails with InvalidParameter ("value is empty"); any other
identifier is accepted and returned with the surrounding whitespace removed. -/
def trimID (_objType : String) (id : String) : Except Error String :=
  let id := TrimSpace id
  if id = "" then .error { kind := ErrorKind.InvalidParameter, text := "value is empty" }
  else .ok id

/-- The struct `image.RemoveOptions`, with the fields that `ImageRemove` reads. -/
structure RemoveOptions where
  Force : Bool
  PruneChildren : Bool
deriving DecidableEq, Repr

/-- The struct `types.ServiceInspectOptions`. -/
structure ServiceInspectOptions where
  InsertDefaults : Bool
deriving DecidableEq, Repr

/-- The call `fmt.Sprintf("%v", b)` for a boolean. -/
def Sprintf_v (b : Bool) : String :=
  if b then "true" else "false"

/-- The method `ImageRemove`. `D` is the type `image.DeleteResponse`; `decode body` is
what `sonic.ConfigDefault.NewDecoder(body).Decode(&dels)` leaves in `dels`, with the error
it returns. The result is the pair returned and the events, oldest first. -/
def ImageRemove {D : Type} (decode : ReadCloser → Option (List D) × Option Error)
    (cli : Client) (imageID : String) (options : RemoveOptions) :
    (Option (List D) × Option Error) × List Event :=
  let query := Values.empty
  let query := if options.Force then query.Set "force" "1" else query
  let query := if !options.PruneChildren then query.Set "noprune" "1" else query
  let sent := [Event.delete ("/images/" ++ imageID) query]
  match cli.delete ("/images/" ++ imageID) query with
  | .error err => ((none, some err), sent ++ [Event.ensureReaderClosed])
  | .ok resp =>
    let (dels, err) := decode resp.Body
    ((dels, err), sent ++ [Event.ensureReaderClosed])

/-- The method `ServiceInspectWithRaw`. `S` is the type `swarm.Service` and `zero` its zero
value; `decode b v` is what `sonic.ConfigDefault.NewDecoder(bytes.NewReader(b)).Decode(&v)`
leaves in `v`, with the error it returns. The result is the triple returned and the
events, oldest first. -/
def ServiceInspectWithRaw {S : Type} (zero : S) (decode : List UInt8 → S → S × Option Error)
    (cli : Client) (serviceID : String) (opts : ServiceInspectOptions) :
    (S × Option (List UInt8) × Option Error) × List Event :=
  match trimID "service" serviceID with
  | .error err => ((zero, none, some err), [])
  | .ok serviceID =>
    let query := Values.empty
    let query := query.Set "insertDefaults" (Sprintf_v opts.InsertDefaults)
    let sent := [Event.get ("/services/" ++ serviceID) query]
    match cli.get ("/services/" ++ serviceID) query with
    | .error err => ((zero, none, some err), sent ++ [Event.ensureReaderClosed])
    | .ok resp =>
      match ReadAll resp.Body with
      | (_, some err) => ((zero, none, some err), sent ++ [Event.ensureReaderClosed])
      | (body, none) =>
        let response := zero
        let (response, err) := decode body response
        ((response, some body, err), sent ++ [Event.ensureReaderClosed])

/-- The calls of `cli.get` and `cli.delete` among the events: the network calls. -/
def networkCalls (evs : List Event) : List Event :=
  evs.filter (fun e => e != Event.ensureReaderClosed)

end client

/-! ## Concrete inputs used to instantiate the theorems -/

namespace sample

open server client

/-- A status mapping in the shape of `httpstatus.FromError`. -/
def FromError (err : Error) : Nat :=
  match err.kind with
  | ErrorKind.InvalidParameter => 400
  | ErrorKind.Unauthorized => 401
  | ErrorKind.Forbidden => 403
  | ErrorKind.NotFound => 404
  | ErrorKind.Conflict => 409
  | ErrorKind.System => 500
  | ErrorKind.Unknown => 500

/-- An endpoint that writes its own success response and returns no error. -/
def okHandler : APIFunc :=
  fun _ w _ _ => (w ++ [Write.raw 200 "ok"], none)

/-- An endpoint that fails without writing. -/
def failHandler : APIFunc :=
  fun _ w _ _ => (w, some { kind := ErrorKind.NotFound, text := "no such container" })

/-- Three route providers, the middle one without routes. -/
def routers : List Router :=
  [{ Routes := [{ Method := "GET", Path := "/info", Handler := okHandler }] },
   { Routes := [] },
   { Routes := [{ Method := "POST", Path := "/containers/create", Handler := failHandler },
                { Method := "GET", Path := "/version", Handler := okHandler }] }]

/-- A build context that is never cancelled. -/
def background : BuildContext := { Err := fun _ => false }

/-- A build context that is cancelled from the call of `ctx.Err()` number `n` on. -/
def cancelledFrom (n : Nat) : BuildContext := { Err := fun k => decide (n ≤ k) }

/-- A middleware that answers every request itself with an error. -/
def deny : Middleware :=
  { WrapHandler := fun _ => fun _ w _ _ =>
      (w, some { kind := ErrorKind.Forbidden, text := "denied" }) }

/-- A server without middleware. -/
def bare : Server := { middlewares := [] }

/-- A request for `GET /info`. -/
def request : Request :=
  { Method := "GET", Path := "/info", UserAgent := "docker-cli",
    ctx := { uaString := none, baggage := [] }, vars := none }

/-- A stand-in for `swarm.Service`. -/
structure Service where
  ID : String
deriving DecidableEq, Repr

/-- A decoder in the shape of the JSON decoder: it fails on an empty body and otherwise
stores the body, read as text, in `ID`. -/
def decodeService (b : List UInt8) (v : Service) : Service × Option Error :=
  if b = [] then (v, some { kind := ErrorKind.Unknown, text := "EOF" })
  else ({ ID := String.mk (b.map (fun c => Char.ofNat c.toNat)) }, none)

/-- A decoder for the list of `image.DeleteResponse`, taken as texts: one entry holding the
body read as text. -/
def decodeDeleted (body : ReadCloser) : Option (List String) × Option Error :=
  match body.err with
  | some e => (none, some e)
  | none => (some [String.mk (body.data.map (fun c => Char.ofNat c.toNat))], none)

/-- A body that reads completely as `ok`. -/
def okBody : ReadCloser := { data := [111, 107], err := none }

/-- A body whose reading fails after one byte. -/
def brokenBody : ReadCloser :=
  { data := [111], err := some { kind := ErrorKind.Unknown, text := "unexpected EOF" } }

/-- The error of the test transport that must not be reached. -/
def notReached : Error := { kind := ErrorKind.System, text := "should not make request" }

/-- A client whose transport answers every call with the body `ok`. -/
def answering : Client where
  get := fun _ _ => .ok { Body := okBody }
  delete := fun _ _ => .ok { Body := okBody }

/-- A client whose transport answers every call with a body that cannot be read. -/
def unreadable : Client where
  get := fun _ _ => .ok { Body := brokenBody }
  delete := fun _ _ => .ok { Body := brokenBody }

/-- A client whose transport fails every call, as the test transport that must not be
reached does. -/
def failing : Client where
  get := fun _ _ => .error notReached
  delete := fun _ _ => .error notReached

end sample

/-! ## The route table built by `CreateMux` -/

namespace server

theorem installRoute_routes (FromError : Error → Nat) (m : Mux) (r : Route) :
    installRoute FromError m r =
      { m with routes := m.routes ++ routeMatchers FromError r } := by
  simp [installRoute, routeMatchers]

theorem registerRoutes_append (FromError : Error → Nat) (ctx : BuildContext)
    (as bs : List Route) (st : Mux × Nat) :
    registerRoutes FromError ctx (as ++ bs) st =
      match registerRoutes FromError ctx as st with
      | .error m => .error m
      | .ok st1 => registerRoutes FromError ctx bs st1 := by
  induction as generalizing st with
  | nil => simp [registerRoutes]
  | cons a as ih =>
    obtain ⟨m, k⟩ := st
    by_cases h : ctx.Err k = true
    · simp [registerRoutes, h]
    · simp [registerRoutes, h, ih]

theorem registerRouters_flat (FromError : Error → Nat) (ctx : BuildContext)
    (routers : List Router) (st : Mux × Nat) :
    registerRouters FromError ctx routers st =
      registerRoutes FromError ctx (flatRoutes routers) st := by
  induction routers generalizing st with
  | nil => simp [registerRouters, flatRoutes, registerRoutes]
  | cons a rest ih =>
    have hflat : flatRoutes (a :: rest) = a.Routes ++ flatRoutes rest := by
      simp [flatRoutes]
    rw [hflat, registerRoutes_append, registerRouters]
    cases registerRoutes FromError ctx a.Routes st with
    | error m => rfl
    | ok st1 => exact ih st1

theorem registerRoutes_ok (FromError : Error → Nat) (ctx : BuildContext)
    (rs : List Route) (m : Mux) (k : Nat)
    (h : ∀ i, i < rs.length → ctx.Err (k + i) = false) :
    registerRoutes FromError ctx rs (m, k) =
      .ok ({ m with routes := m.routes ++ rs.flatMap (routeMatchers FromError) },
           k + rs.length) := by
  induction rs generalizing m k with
  | nil => simp [registerRoutes]
  | cons r rs ih =>
    have h0 : ctx.Err k = false := by simpa using h 0 (by simp)
    have hrest : ∀ i, i < rs.length → ctx.Err (k + 1 + i) = false := by
      intro i hi
      have := h (i + 1) (by simpa using hi)
      simpa [Nat.add_assoc, Nat.add_comm 1 i] using this
    simp only [registerRoutes, h0, Bool.false_eq_true, if_false]
    rw [ih _ _ hrest, installRoute_routes]
    simp [List.append_assoc, Nat.add_assoc, Nat.add_comm 1]

theorem registerRoutes_cancel (FromError : Error → Nat) (ctx : BuildContext)
    (rs : List Route) (m : Mux) (k j : Nat) (hj : j < rs.length)
    (hbefore : ∀ i, i < j → ctx.Err (k + i) = false) (hat : ctx.Err (k + j) = true) :
    registerRoutes FromError ctx rs (m, k) =
      .error { m with routes :=
        m.routes ++ (rs.take j).flatMap (routeMatchers FromError) } := by
  induction rs generalizing m k j with
  | nil => simp at hj
  | cons r rs ih =>
    cases j with
    | zero =>
      have h0 : ctx.Err k = true := by simpa using hat
      simp [registerRoutes, h0]
    | succ j =>
      have h0 : ctx.Err k = false := by simpa using hbefore 0 (by simp)
      have hj1 : j < rs.length := by simpa using hj
      have hb : ∀ i, i < j → ctx.Err (k + 1 + i) = false := by
        intro i hi
        have := hbefore (i + 1) (by omega)
        simpa [Nat.add_assoc, Nat.add_comm 1 i] using this
      have ha : ctx.Err (k + 1 + j) = true := by
        simpa [Nat.add_assoc, Nat.add_comm 1 j] using hat
      simp only [registerRoutes, h0, Bool.false_eq_true, if_false]
      rw [ih _ _ _ hj1 hb ha, installRoute_routes]
      simp [List.append_assoc]

/-- C1: when the build context is not cancelled during the call, the routes of the table
that `CreateMux` returns are, for every route of every router in order, exactly two
matchers restricted to the method of the route, one on `versionMatcher + r.Path()` and one
on the bare `r.Path()`, both bound to the same handler
`makeHTTPHandler(r.Handler(), r.Method() + " " + r.Path())`, followed only by the versioned
catch-all; and `versionMatcher` is the pattern of a `/v` segment of digits and dots. -/
theorem CreateMux_installs_two_matchers (FromError : Error → Nat) (ctx : BuildContext)
    (routers : List Router)
    (h : ∀ k, k < (flatRoutes routers).length → ctx.Err k = false) :
    (CreateMux FromError ctx routers).routes =
        (flatRoutes routers).flatMap (fun r =>
          [MuxRoute.mk (versionMatcher ++ r.Path) (some [r.Method])
             (makeHTTPHandler FromError r.Handler (r.Method ++ " " ++ r.Path)),
           MuxRoute.mk r.Path (some [r.Method])
             (makeHTTPHandler FromError r.Handler (r.Method ++ " " ++ r.Path))])
          ++ [catchAll]
      ∧ versionMatcher = "/v\x7bversion:[0-9.]+\x7d" := by
  refine ⟨?_, rfl⟩
  have hk : ∀ i, i < (flatRoutes routers).length → ctx.Err (0 + i) = false := by
    intro i hi
    simpa using h i hi
  unfold CreateMux
  rw [registerRouters_flat, registerRoutes_ok FromError ctx _ NewRouter 0 hk]
  simp only [NewRouter, catchAll, List.nil_append]
  rfl

/-- C1, instantiated: three providers with three routes in all give six matchers and the
catch-all. -/
theorem CreateMux_installs_two_matchers_witness :
    (∀ k, k < (flatRoutes sample.routers).length → sample.background.Err k = false) ∧
    ((CreateMux sample.FromError sample.background sample.routers).routes =
        (flatRoutes sample.routers).flatMap (fun r =>
          [MuxRoute.mk (versionMatcher ++ r.Path) (some [r.Method])
             (makeHTTPHandler sample.FromError r.Handler (r.Method ++ " " ++ r.Path)),
           MuxRoute.mk r.Path (some [r.Method])
             (makeHTTPHandler sample.FromError r.Handler (r.Method ++ " " ++ r.Path))])
          ++ [catchAll]
      ∧ versionMatcher = "/v\x7bversion:[0-9.]+\x7d") :=
  ⟨fun _ _ => rfl,
   CreateMux_installs_two_matchers sample.FromError sample.background sample.routers
     (fun _ _ => rfl)⟩

/-- C2: when the build context is not cancelled during the call, the table has one and the
same handler as `NotFoundHandler`, as `MethodNotAllowedHandler` and as the handler of the
method-unrestricted pattern `versionMatcher + "/{path:.*}"`, which is its last route; on
every request that handler writes status 404 with the body `{"message":"page not found"}`
and nothing else. -/
theorem CreateMux_page_not_found (FromError : Error → Nat) (ctx : BuildContext)
    (routers : List Router)
    (h : ∀ k, k < (flatRoutes routers).length → ctx.Err k = false) :
    (CreateMux FromError ctx routers).NotFoundHandler = some notFoundHandler
    ∧ (CreateMux FromError ctx routers).MethodNotAllowedHandler = some notFoundHandler
    ∧ (CreateMux FromError ctx routers).routes.getLast? =
        some (MuxRoute.mk (versionMatcher ++ "/\x7bpath:.*\x7d") none notFoundHandler)
    ∧ ∀ (s : Server) (w : ResponseWriter) (r : Request),
        notFoundHandler.ServeHTTP s w r =
          (w ++ [Write.json 404 { Message := "page not found" }], []) := by
  have hk : ∀ i, i < (flatRoutes routers).length → ctx.Err (0 + i) = false := by
    intro i hi
    simpa using h i hi
  unfold CreateMux
  rw [registerRouters_flat, registerRoutes_ok FromError ctx _ NewRouter 0 hk]
  refine ⟨rfl, rfl, ?_, ?_⟩
  · simp
  · intro s w r
    rfl

/-- C2, instantiated on the three sample providers. -/
theorem CreateMux_page_not_found_witness :
    (∀ k, k < (flatRoutes sample.routers).length → sample.background.Err k = false) ∧
    (CreateMux sample.FromError sample.background sample.routers).NotFoundHandler =
      some notFoundHandler ∧
    (CreateMux sample.FromError sample.background sample.routers).MethodNotAllowedHandler =
      some notFoundHandler ∧
    notFoundHandler.ServeHTTP sample.bare [] sample.request =
      ([Write.json 404 { Message := "page not found" }], []) :=
  have key := CreateMux_page_not_found sample.FromError sample.background sample.routers
    (fun _ _ => rfl)
  ⟨fun _ _ => rfl, key.1, key.2.1, key.2.2.2 sample.bare [] sample.request⟩

/-- C9: when the call of `ctx.Err()` number `j` is the first that reports cancellation and
a route is left to install at that point, `CreateMux` returns a table whose routes are the
two matchers of each of the first `j` routes of the flattened provider list and nothing
else: no catch-all route, no `NotFoundHandler`, no `MethodNotAllowedHandler`. With `j = 0`
(the context is cancelled on entry and some router has a route) the table is the freshly
created one. -/
theorem CreateMux_cancelled (FromError : Error → Nat) (ctx : BuildContext)
    (routers : List Router) (j : Nat) (hj : j < (flatRoutes routers).length)
    (hbefore : ∀ i, i < j → ctx.Err i = false) (hat : ctx.Err j = true) :
    CreateMux FromError ctx routers =
        { routes := ((flatRoutes routers).take j).flatMap (fun r =>
            [MuxRoute.mk (versionMatcher ++ r.Path) (some [r.Method])
               (makeHTTPHandler FromError r.Handler (r.Method ++ " " ++ r.Path)),
             MuxRoute.mk r.Path (some [r.Method])
               (makeHTTPHandler FromError r.Handler (r.Method ++ " " ++ r.Path))]),
          NotFoundHandler := none,
          MethodNotAllowedHandler := none }
      ∧ (j = 0 → CreateMux FromError ctx routers = NewRouter) := by
  have hb : ∀ i, i < j → ctx.Err (0 + i) = false := by
    intro i hi
    simpa using hbefore i hi
  have ha : ctx.Err (0 + j) = true := by simpa using hat
  have hmux : CreateMux FromError ctx routers =
      { routes := ((flatRoutes routers).take j).flatMap (routeMatchers FromError),
        NotFoundHandler := none, MethodNotAllowedHandler := none } := by
    unfold CreateMux
    rw [registerRouters_flat, registerRoutes_cancel FromError ctx _ NewRouter 0 j hj hb ha]
    simp only [NewRouter, List.nil_append]
  refine ⟨hmux, ?_⟩
  intro h0
  rw [hmux, h0]
  rfl

/-- C9, instantiated: cancelled on entry the sample providers leave the fresh table;
cancelled from the second `ctx.Err()` call on, exactly the two matchers of the first route
are installed. -/
theorem CreateMux_cancelled_witness :
    CreateMux sample.FromError (sample.cancelledFrom 0) sample.routers = NewRouter
    ∧ (CreateMux sample.FromError (sample.cancelledFrom 1) sample.routers).routes.map
        (fun e => (e.pathTemplate, e.methods)) =
        [("/v\x7bversion:[0-9.]+\x7d/info", some ["GET"]), ("/info", some ["GET"])]
    ∧ (CreateMux sample.FromError (sample.cancelledFrom 1) sample.routers).NotFoundHandler.isNone
        = true :=
  ⟨(CreateMux_cancelled sample.FromError (sample.cancelledFrom 0) sample.routers 0
      (by decide) (fun _ hi => absurd hi (Nat.not_lt_zero _)) rfl).2 rfl,
   by
     rw [(CreateMux_cancelled sample.FromError (sample.cancelledFrom 1) sample.routers 1
       (by decide) (fun i hi => by
         have : i = 0 := by omega
         subst this
         rfl) rfl).1]
     decide,
   by
     rw [(CreateMux_cancelled sample.FromError (sample.cancelledFrom 1) sample.routers 1
       (by decide) (fun i hi => by
         have : i = 0 := by omega
         subst this
         rfl) rfl).1]
     rfl⟩

/-! ## The dispatcher built by `makeHTTPHandler` -/

/-- C3: a handler built by `makeHTTPHandler` runs the composed handler on the request and
leaves the response as the composed handler left it when that returns no error; when it
returns an error `err`, the dispatcher adds exactly one write, with the status
`FromError err` and the JSON body whose message is `err.Error()`. -/
theorem makeHTTPHandler_response (FromError : Error → Nat) (handler : APIFunc)
    (operation : String) (s : Server) (w : ResponseWriter) (r : Request) :
    ((makeHTTPHandler FromError handler operation).ServeHTTP s w r).1 =
      match handlerWithGlobalMiddlewares s handler
          { uaString := some r.UserAgent, baggage := [(BaggageKey.TriggerKey, "api")] } w
          { r with ctx :=
              { uaString := some r.UserAgent, baggage := [(BaggageKey.TriggerKey, "api")] } }
          (r.vars.getD []) with
      | (w1, none) => w1
      | (w1, some err) => w1 ++ [Write.json (FromError err) { Message := err.text }] := by
  have hv : (match r.vars with
      | some v => v
      | none => []) = r.vars.getD [] := by
    cases r.vars <;> rfl
  simp only [makeHTTPHandler, hv]
  split <;> rename_i heq <;> simp [heq, WriteJSON]

/-- C8 fails on the code: `UseMiddleware` is documented as needing to be called before the
routes are configured, yet nothing guards a later call. The first handler of the table
built for the sample providers while the server has no middleware answers `GET /info` with
the endpoint's own response; after a later `UseMiddleware(deny)` the same handler answers
the same request with the error of `deny`. -/
theorem late_UseMiddleware_changes_dispatch :
    (CreateMux sample.FromError sample.background sample.routers).routes.head?.map
        (fun e => e.handler) =
      some (makeHTTPHandler sample.FromError sample.okHandler "GET /info")
    ∧ (makeHTTPHandler sample.FromError sample.okHandler "GET /info").ServeHTTP
        sample.bare [] sample.request = ([Write.raw 200 "ok"], [])
    ∧ (makeHTTPHandler sample.FromError sample.okHandler "GET /info").ServeHTTP
        (UseMiddleware sample.bare sample.deny) [] sample.request =
          ([Write.json 403 { Message := "denied" }], []) :=
  ⟨rfl, rfl, rfl⟩

end server

/-! ## Identifier validation -/

namespace client

theorem dropWhile_of_all {α : Type} (p : α → Bool) (l : List α) (h : l.all p = true) :
    l.dropWhile p = [] := by
  induction l with
  | nil => rfl
  | cons a l ih =>
    simp only [List.all_cons, Bool.and_eq_true] at h
    simp [List.dropWhile, h.1, ih h.2]

theorem mem_dropWhile_of_not {α : Type} (p : α → Bool) (l : List α) (x : α)
    (hx : x ∈ l) (hp : p x = false) : x ∈ l.dropWhile p := by
  induction l with
  | nil => simp at hx
  | cons a l ih =>
    by_cases ha : p a = true
    · have hne : x ≠ a := by
        intro hxa
        rw [hxa, ha] at hp
        exact Bool.noConfusion hp
      have hmem : x ∈ l := by
        rcases List.mem_cons.mp hx with h | h
        · exact absurd h hne
        · exact h
      simpa [List.dropWhile, ha] using ih hmem
    · simpa [List.dropWhile, ha] using hx

theorem TrimSpace_of_blank (s : String) (h : isBlank s = true) : TrimSpace s = "" := by
  unfold TrimSpace
  rw [dropWhile_of_all isSpace s.data h]
  rfl

theorem TrimSpace_ne_empty (s : String) (h : isBlank s = false) : TrimSpace s ≠ "" := by
  have hex : ∃ x, x ∈ s.data ∧ isSpace x = false := by
    unfold isBlank at h
    by_contra hno
    have hall : s.data.all isSpace = true := by
      rw [List.all_eq_true]
      intro x hx
      by_contra hx2
      exact hno ⟨x, hx, by simpa using hx2⟩
    rw [hall] at h
    exact Bool.noConfusion h
  obtain ⟨x, hx, hp⟩ := hex
  have h1 : x ∈ s.data.dropWhile isSpace := mem_dropWhile_of_not isSpace _ x hx hp
  have h2 : x ∈ ((s.data.dropWhile isSpace).reverse.dropWhile isSpace) :=
    mem_dropWhile_of_not isSpace _ x (List.mem_reverse.mpr h1) hp
  have h3 : x ∈ ((s.data.dropWhile isSpace).reverse.dropWhile isSpace).reverse :=
    List.mem_reverse.mpr h2
  intro hempty
  unfold TrimSpace at hempty
  have hdata := congrArg String.data hempty
  simp only at hdata
  rw [hdata] at h3
  simp at h3

theorem trimID_of_blank (objType s : String) (h : isBlank s = true) :
    trimID objType s =
      .error { kind := ErrorKind.InvalidParameter, text := "value is empty" } := by
  simp [trimID, TrimSpace_of_blank s h]

theorem trimID_of_not_blank (objType s : String) (h : isBlank s = false) :
    trimID objType s = .ok (TrimSpace s) := by
  simp [trimID, TrimSpace_ne_empty s h]

/-! ## `ServiceInspectWithRaw` and `ImageRemove` -/

/-- C4: for a service identifier that is empty or consists solely of whitespace, and any
options, `ServiceInspectWithRaw` returns the zero service, nil raw bytes and an
InvalidParameter error whose text contains "value is empty", and it does nothing to the
outside: `cli.get` is not called. -/
theorem ServiceInspectWithRaw_blank_id {S : Type} (zero : S)
    (decode : List UInt8 → S → S × Option Error) (cli : Client) (serviceID : String)
    (opts : ServiceInspectOptions) (h : isBlank serviceID = true) :
    ∃ err : Error,
      ServiceInspectWithRaw zero decode cli serviceID opts = ((zero, none, some err), [])
      ∧ err.kind = ErrorKind.InvalidParameter
      ∧ "value is empty".data <:+: err.text.data := by
  refine ⟨{ kind := ErrorKind.InvalidParameter, text := "value is empty" }, ?_, rfl, ?_⟩
  · simp [ServiceInspectWithRaw, trimID_of_blank "service" serviceID h]
  · exact List.infix_refl _

/-- C4, instantiated on the identifier of four spaces and a transport that must not be
reached. -/
theorem ServiceInspectWithRaw_blank_id_witness :
    isBlank "    " = true ∧
    ∃ err : Error,
      ServiceInspectWithRaw (S := sample.Service) { ID := "" } sample.decodeService
          sample.failing "    " { InsertDefaults := false } =
        (({ ID := "" }, none, some err), [])
      ∧ err.kind = ErrorKind.InvalidParameter
      ∧ "value is empty".data <:+: err.text.data :=
  ⟨by decide,
   ServiceInspectWithRaw_blank_id { ID := "" } sample.decodeService sample.failing "    "
     { InsertDefaults := false } (by decide)⟩

/-- C5 fails on the code: `ImageRemove` does not validate its identifier. For the empty
identifier and for the identifier of four spaces it calls `cli.delete` on the path
`/images/` followed by the identifier, and the error it returns is the one of the
transport. -/
theorem ImageRemove_blank_id_sends_request :
    ImageRemove sample.decodeDeleted sample.failing "" { Force := false, PruneChildren := true }
        = ((none, some sample.notReached),
           [Event.delete "/images/" Values.empty, Event.ensureReaderClosed])
    ∧ ImageRemove sample.decodeDeleted sample.failing "    "
          { Force := false, PruneChildren := true }
        = ((none, some sample.notReached),
           [Event.delete "/images/    " Values.empty, Event.ensureReaderClosed])
    ∧ isBlank "" = true ∧ isBlank "    " = true := by
  refine ⟨rfl, rfl, by decide, by decide⟩

/-- C6: for every identifier and options, the only network call of `ImageRemove` is one
`cli.delete` on the path `"/images/" + imageID`; its query binds `force` (to the single
value "1") exactly when `options.Force` is true, binds `noprune` (to the single value "1")
exactly when `options.PruneChildren` is false, and has no other key. -/
theorem ImageRemove_request {D : Type} (decode : ReadCloser → Option (List D) × Option Error)
    (cli : Client) (imageID : String) (options : RemoveOptions) :
    ∃ query : Values,
      networkCalls (ImageRemove decode cli imageID options).2 =
        [Event.delete ("/images/" ++ imageID) query]
      ∧ ("force" ∈ query.keys ↔ options.Force = true)
      ∧ (query.lookup "force" = some ["1"] ↔ options.Force = true)
      ∧ ("noprune" ∈ query.keys ↔ options.PruneChildren = false)
      ∧ (query.lookup "noprune" = some ["1"] ↔ options.PruneChildren = false)
      ∧ ∀ key, key ∈ query.keys → key = "force" ∨ key = "noprune" := by
  obtain ⟨force, prune⟩ := options
  refine ⟨(if !prune then
      (if force then Values.empty.Set "force" "1" else Values.empty).Set "noprune" "1"
    else (if force then Values.empty.Set "force" "1" else Values.empty)), ?_, ?_⟩
  · simp only [ImageRemove]
    cases cli.delete ("/images/" ++ imageID) _ <;> simp [networkCalls]
  · cases force <;> cases prune <;> decide

/-- C7 as stated fails: for the identifier `web` the query handed to `cli.get` binds
`insertDefaults` also when `opts.InsertDefaults` is false, to the value "false", and when
it is true the value is "true", not "1". -/
theorem ServiceInspectWithRaw_insertDefaults_always_sent :
    isBlank "web" = false
    ∧ networkCalls (ServiceInspectWithRaw (S := sample.Service) { ID := "" }
          sample.decodeService sample.answering "web" { InsertDefaults := false }).2 =
        [Event.get "/services/web" { entries := [("insertDefaults", ["false"])] }]
    ∧ networkCalls (ServiceInspectWithRaw (S := sample.Service) { ID := "" }
          sample.decodeService sample.answering "web" { InsertDefaults := true }).2 =
        [Event.get "/services/web" { entries := [("insertDefaults", ["true"])] }] := by
  refine ⟨by decide, by decide, by decide⟩

/-- C7, amended: for every identifier that is not blank, the only network call of
`ServiceInspectWithRaw` is one `cli.get` on the path `"/services/"` followed by the trimmed
identifier, and its query binds the single key `insertDefaults` to the single value that
is the text of the boolean: "true" when `opts.InsertDefaults` is true, "false" when it is
false. -/
theorem ServiceInspectWithRaw_query {S : Type} (zero : S)
    (decode : List UInt8 → S → S × Option Error) (cli : Client) (serviceID : String)
    (opts : ServiceInspectOptions) (h : isBlank serviceID = false) :
    networkCalls (ServiceInspectWithRaw zero decode cli serviceID opts).2 =
      [Event.get ("/services/" ++ TrimSpace serviceID)
        { entries :=
            [("insertDefaults", [if opts.InsertDefaults = true then "true" else "false"])] }]
      := by
  simp only [ServiceInspectWithRaw, trimID_of_not_blank "service" serviceID h]
  have hq : Values.empty.Set "insertDefaults" (Sprintf_v opts.InsertDefaults) =
      { entries :=
          [("insertDefaults", [if opts.InsertDefaults = true then "true" else "false"])] } := by
    cases h1 : opts.InsertDefaults <;> simp [Values.Set, Values.empty, Sprintf_v]
  rw [hq]
  cases cli.get ("/services/" ++ TrimSpace serviceID) _ with
  | error e => simp [networkCalls]
  | ok resp =>
    simp only [ReadAll]
    cases resp.Body.err <;> simp [networkCalls]

/-- C7 amended, instantiated on the identifier `web` with surrounding blanks. -/
theorem ServiceInspectWithRaw_query_witness :
    isBlank " web " = false ∧
    networkCalls (ServiceInspectWithRaw (S := sample.Service) { ID := "" }
        sample.decodeService sample.answering " web " { InsertDefaults := true }).2 =
      [Event.get ("/services/" ++ TrimSpace " web ")
        { entries := [("insertDefaults", [if true = true then "true" else "false"])] }] :=
  ⟨by decide,
   ServiceInspectWithRaw_query { ID := "" } sample.decodeService sample.answering " web "
     { InsertDefaults := true } (by decide)⟩

/-- C10: for an identifier that is not blank, when `cli.get` answers with a response whose
body reads completely as `b`, `ServiceInspectWithRaw` returns `b` as the raw bytes together
with the service and the error that decoding exactly `b` into a zero service gives; when
reading the body fails with `e`, it returns the zero service, nil raw bytes and `e`. -/
theorem ServiceInspectWithRaw_raw_and_decoded {S : Type} (zero : S)
    (decode : List UInt8 → S → S × Option Error) (cli : Client) (serviceID : String)
    (opts : ServiceInspectOptions) (resp : Response) (b : List UInt8)
    (h : isBlank serviceID = false)
    (hget : cli.get ("/services/" ++ TrimSpace serviceID)
        (Values.empty.Set "insertDefaults" (Sprintf_v opts.InsertDefaults)) = .ok resp) :
    (ReadAll resp.Body = (b, none) →
      (ServiceInspectWithRaw zero decode cli serviceID opts).1 =
        ((decode b zero).1, some b, (decode b zero).2))
    ∧ (∀ e, ReadAll resp.Body = (b, some e) →
      (ServiceInspectWithRaw zero decode cli serviceID opts).1 = (zero, none, some e)) := by
  constructor
  · intro hread
    simp only [ServiceInspectWithRaw, trimID_of_not_blank "service" serviceID h, hget, hread]
  · intro e hread
    simp only [ServiceInspectWithRaw, trimID_of_not_blank "service" serviceID h, hget, hread]

/-- C10, instantiated: a body that reads as `ok` comes back unchanged next to the service
decoded from it, and an unreadable body gives the zero service and nil raw bytes. -/
theorem ServiceInspectWithRaw_raw_and_decoded_witness :
    (ServiceInspectWithRaw (S := sample.Service) { ID := "" } sample.decodeService
        sample.answering "web" { InsertDefaults := false }).1 =
      ({ ID := "ok" }, some [111, 107], none)
    ∧ (ServiceInspectWithRaw (S := sample.Service) { ID := "" } sample.decodeService
        sample.unreadable "web" { InsertDefaults := false }).1 =
      ({ ID := "" }, none, some { kind := ErrorKind.Unknown, text := "unexpected EOF" }) :=
  ⟨(ServiceInspectWithRaw_raw_and_decoded { ID := "" } sample.decodeService sample.answering
      "web" { InsertDefaults := false } { Body := sample.okBody } [111, 107] (by decide)
      rfl).1 rfl,
   (ServiceInspectWithRaw_raw_and_decoded { ID := "" } sample.decodeService sample.unreadable
      "web" { InsertDefaults := false } { Body := sample.brokenBody } [111] (by decide)
      rfl).2 _ rfl⟩

end client

end Moby
